import Mathlib

/-!
Verification development for the diabeatit_app repository.

The frontend (ProfileForm.jsx, MealPlan.jsx, api.js, App.jsx, constants.js)
is embedded directly from the source.  The backend HealthMetricsCalculator
(a FastAPI/Python service) is not part of the provided sources; it is
modelled from the specification, which pins its shape (BMR from height and
weight via a standard formula, an activity-level multiplier giving TDEE,
diabetic-type adjustment factors deriving the four integer targets) while
leaving exact coefficients open.

JavaScript numbers are modelled as rationals; `Math.round x` is `⌊x + 1/2⌋`,
which agrees with JavaScript on all inputs including negatives.  Form fields
holding the empty string are modelled as `Option` with `none` for the empty
string, matching the truthiness tests the source performs on them.
-/

/-- JavaScript Math.round: floor of x + 1/2 (rounds half away from zero
towards positive infinity, as JS does, including for negative inputs). -/
def jsRound (q : ℚ) : ℤ := ⌊q + 1/2⌋

/-- JavaScript Number(x) on a form field: the empty string converts to 0. -/
def jsNumber (o : Option ℚ) : ℚ := o.getD 0

/-- The four-valued diabetic type enum (schema.sql: type1, type2,
prediabetic, gestational; constants.js DIABETIC_TYPES). -/
inductive DiabeticType
  | type1
  | type2
  | prediabetic
  | gestational
deriving DecidableEq

/-- HealthProfile input record (schema.sql user_health_profiles, spec §3). -/
structure HealthProfile where
  height_cm : ℚ
  weight_kg : ℚ
  activity_level : ℕ
  exercise_freq_per_week : ℕ
  diabetic_type : DiabeticType
deriving DecidableEq

/-- HealthMetrics output record (schema.sql cached columns, spec §3). -/
structure HealthMetrics where
  bmr : ℚ
  tdee : ℚ
  daily_calories : ℤ
  max_carbs_per_meal : ℤ
  daily_carbs_limit : ℤ
  protein_target : ℤ
deriving DecidableEq

/-- Validity of a HealthProfile (spec §4.1 input constraints): positive
height and weight, activity level in 1..4.  The exercise frequency is a
natural number, hence nonnegative by construction, and the diabetic type is
total over the enum. -/
def validProfile (p : HealthProfile) : Prop :=
  0 < p.height_cm ∧ 0 < p.weight_kg ∧ 1 ≤ p.activity_level ∧ p.activity_level ≤ 4

instance decValidProfile (p : HealthProfile) : Decidable (validProfile p) :=
  inferInstanceAs (Decidable (0 < p.height_cm ∧ 0 < p.weight_kg ∧
    1 ≤ p.activity_level ∧ p.activity_level ≤ 4))

/-- Modelled from the spec: the activity-level multiplier of the backend
HealthMetricsCalculator (not under src/).  Standard sedentary-to-very-active
factors 1.2, 1.375, 1.55, 1.725 for levels 1..4; out-of-range levels are
rejected by validation before reaching the calculator, the default branch
reuses the sedentary factor. -/
def activityFactor (level : ℕ) : ℚ :=
  if level = 1 then 6/5
  else if level = 2 then 11/8
  else if level = 3 then 31/20
  else if level = 4 then 69/40
  else 6/5

/-- Modelled from the spec: the diabetic-type-specific carbohydrate fraction
of daily calories (tighter ceiling for type1/type2, spec §4.1). -/
def carbFraction : DiabeticType → ℚ
  | .type1 => 7/20
  | .type2 => 7/20
  | .prediabetic => 2/5
  | .gestational => 2/5

/-- Modelled from the spec: the backend HealthMetricsCalculator (FastAPI
service, not under src/).  BMR from height and weight via a standard
(Mifflin-St Jeor shaped) formula, TDEE as BMR times the activity factor,
then the four integer targets derived from TDEE: calories as TDEE rounded
up, the daily carb limit as the diabetic-type carb fraction of calories at
4 kcal per gram, the per-meal carb cap as a third of the daily limit, and
the protein target as 15 percent of calories at 4 kcal per gram. -/
def healthMetricsCalculator (p : HealthProfile) : HealthMetrics :=
  let bmr : ℚ := 10 * p.weight_kg + 25/4 * p.height_cm + 5
  let tdee : ℚ := bmr * activityFactor p.activity_level
  { bmr := bmr
    tdee := tdee
    daily_calories := ⌈tdee⌉
    max_carbs_per_meal := ⌈tdee * carbFraction p.diabetic_type / 12⌉
    daily_carbs_limit := ⌈tdee * carbFraction p.diabetic_type / 4⌉
    protein_target := ⌈tdee * 3 / 80⌉ }

/-- The validated entry point: the registration handler validates the raw
input before invoking the calculator (spec §6, §7); invalid profiles are
rejected with a validation error and never reach the calculator. -/
def healthMetricsChecked (p : HealthProfile) : Except String HealthMetrics :=
  if validProfile p then Except.ok (healthMetricsCalculator p)
  else Except.error "validation error"

/-- DEFAULT_PROFILE from frontend/src/utils/constants.js. -/
def DEFAULT_PROFILE : HealthProfile :=
  { height_cm := 170
    weight_kg := 70
    activity_level := 2
    exercise_freq_per_week := 2
    diabetic_type := .type2 }

/-- ProfileForm.jsx validate: the height error is set when the Feet field is
empty (falsy) or outside 3..8; the weight error is set when the pounds field
is the empty string or outside 50..700.  The Inches field is not examined.
Numeric string comparison in JS coerces the field to a number, modelled by
carrying the parsed rational directly; `none` is the empty string. -/
def validate (heightFt weightLbs : Option ℚ) : Bool :=
  let heightErr : Bool :=
    match heightFt with
    | none => true
    | some x => decide (x < 3) || decide (x > 8)
  let weightErr : Bool :=
    match weightLbs with
    | none => true
    | some x => decide (x < 50) || decide (x > 700)
  !heightErr && !weightErr

/-- ProfileForm.jsx handleSubmit height conversion: totalInches is
Number(heightFt) * 12 + Number(heightIn or 0), and height_cm is
Math.round(totalInches * 2.54). -/
def submittedHeightCm (heightFt heightIn : Option ℚ) : ℤ :=
  jsRound ((jsNumber heightFt * 12 + jsNumber heightIn) * (254/100))

/-- ProfileForm.jsx handleSubmit weight conversion:
Math.round(Number(weightLbs) / 2.20462). -/
def submittedWeightKg (weightLbs : Option ℚ) : ℤ :=
  jsRound (jsNumber weightLbs / (220462/100000))

/-- A meal entry of the AI meal plan as read by MealPlan.jsx: only the
total_carbs field matters for the daily summary; it may be absent. -/
structure MealData where
  total_carbs : Option ℚ

/-- The mealPlan prop of MealPlan.jsx: the meals may sit under a nested
meal_plan object or at top level; both are string-keyed maps, modelled as
association lists. -/
structure MealPlanVal where
  meal_plan : Option (List (String × MealData))
  top : List (String × MealData)

/-- MealPlan.jsx meal lookup: mealPlan.meal_plan?.[key] || mealPlan[key]
(the nested object wins when it holds the key, otherwise fall through to
the top level). -/
def getMeal (mp : MealPlanVal) (k : String) : Option MealData :=
  match mp.meal_plan with
  | some inner =>
    match inner.lookup k with
    | some d => some d
    | none => mp.top.lookup k
  | none => mp.top.lookup k

/-- MealPlan.jsx per-meal carbs: mealData?.total_carbs || 0. -/
def mealCarbs (mp : MealPlanVal) (k : String) : ℚ :=
  ((getMeal mp k).bind (fun d => d.total_carbs)).getD 0

/-- The keys of MEAL_TYPES from constants.js, in order. -/
def MEAL_TYPES : List String := ["breakfast", "lunch", "dinner", "snacks"]

/-- MealPlan.jsx totalCarbs: MEAL_TYPES.reduce accumulating each meal's
total_carbs or 0, starting from 0. -/
def totalCarbs (mp : MealPlanVal) : ℚ :=
  MEAL_TYPES.foldl (fun sum k => sum + mealCarbs mp k) 0

/-- MealPlan.jsx limit indicator: the Within branch renders exactly when
totalCarbs <= dailyCarbsLimit, the Exceeds branch otherwise. -/
def withinLimit (mp : MealPlanVal) (dailyCarbsLimit : ℚ) : Bool :=
  decide (totalCarbs mp ≤ dailyCarbsLimit)

/-- The JavaScript value in error.response.data as api.js distinguishes it:
null or undefined (falsy), a plain object carrying an optional string
detail field, or a raw non-object body such as the string axios yields
when the reply is not JSON.  The typeof object guard of the source holds
on the obj case only. -/
inductive JsData
  | nullish
  | obj (detail : Option String)
  | str (s : String)

/-- The response part of an axios error as read by api.js: HTTP status and
the body. -/
structure ApiResponseData where
  status : ℕ
  data : JsData

/-- An axios rejection as read by the response interceptor in api.js. -/
structure ApiError where
  response : Option ApiResponseData
  message : String

/-- JS truthiness of the data slot: null, undefined and the empty string
are falsy; an object and a non-empty string are truthy. -/
def dataTruthy : JsData → Bool
  | .nullish => false
  | .obj _ => true
  | .str s => !(s == "")

/-- The detail property of the data slot: only an object carries one; a
property read on a string body yields undefined, never short-circuiting. -/
def dataDetail : JsData → Option String
  | .nullish => none
  | .obj d => d
  | .str _ => none

/-- Whether typeof data === 'object' holds of the data slot. -/
def dataIsObj : JsData → Bool
  | .obj _ => true
  | _ => false

/-- JavaScript string fallback a || b: the empty string is falsy. -/
def jsOrStr (d : Option String) (fallback : String) : String :=
  match d with
  | some s => if s = "" then fallback else s
  | none => fallback

/-- api.js: error.response?.data?.detail || error.message, which is also
exactly what every caller of the api reads off a rejected error (useChat,
App.jsx). -/
def origMessage (e : ApiError) : String :=
  jsOrStr (e.response.bind (fun r => dataDetail r.data)) e.message

/-- JavaScript toLowerCase, characterwise. -/
def lowerStr (s : String) : String := (s.toList.map Char.toLower).asString

/-- The needle matches at the head of the haystack. -/
def charsLead (needle hay : List Char) : Bool :=
  match needle, hay with
  | [], _ => true
  | _ :: _, [] => false
  | a :: as, b :: bs => a == b && charsLead as bs

/-- The needle occurs contiguously somewhere in the haystack. -/
def charsContain (needle : List Char) : List Char → Bool
  | [] => charsLead needle []
  | b :: rest => charsLead needle (b :: rest) || charsContain needle rest

/-- JavaScript hay.toLowerCase().includes(needle). -/
def strContainsLower (hay needle : String) : Bool :=
  charsContain needle.toList (lowerStr hay).toList

/-- api.js: error.response?.status === 429. -/
def statusIs429 (e : ApiError) : Bool :=
  match e.response with
  | some r => decide (r.status = 429)
  | none => false

/-- api.js isQuotaError: status 429, or the message contains quota, limit,
or resource exhausted case-insensitively.  The detail is modelled as a
string when present, so the typeof string guard of the source always
holds here. -/
def isQuotaError (e : ApiError) : Bool :=
  statusIs429 e ||
    (strContainsLower (origMessage e) "quota" ||
     strContainsLower (origMessage e) "limit" ||
     strContainsLower (origMessage e) "resource exhausted")

/-- The fixed replacement message of api.js. -/
def quotaMessage : String := "⚠️ AI Service Usage Limit Reached. Please try again later."

/-- api.js lines 52-61: write the final errorMessage back into the error.
When a response exists, a falsy data slot is first replaced by a fresh
object, then detail is assigned only under the typeof object guard — a
truthy non-object body is left untouched and the message is dropped.
Without a response, the error's message field is overwritten. -/
def interceptError (e : ApiError) : ApiError :=
  let errorMessage := if isQuotaError e then quotaMessage else origMessage e
  match e.response with
  | some r =>
      let newData :=
        if !dataTruthy r.data then JsData.obj (some errorMessage)
        else if dataIsObj r.data then JsData.obj (some errorMessage)
        else r.data
      { e with response := some { r with data := newData } }
  | none => { e with message := errorMessage }

/-- The data slot accepts the replacement message: no response at all, or
a falsy body (replaced by a fresh object), or an object body. -/
def writableData (e : ApiError) : Bool :=
  match e.response with
  | none => true
  | some r => !dataTruthy r.data || dataIsObj r.data

/-- The message a caller observes from the rejected error after the
interceptor ran: response?.data?.detail || message on the updated error. -/
def propagatedMessage (e : ApiError) : String :=
  origMessage (interceptError e)

/-- STEPS.START from App.jsx. -/
def STEPS_START : ℤ := 0

/-- STEPS.PROFILE from App.jsx. -/
def STEPS_PROFILE : ℤ := 1

/-- STEPS.CARE_MODE from App.jsx. -/
def STEPS_CARE_MODE : ℤ := 2

/-- STEPS.DASHBOARD from App.jsx. -/
def STEPS_DASHBOARD : ℤ := 3

/-- STEPS.METRICS from App.jsx. -/
def STEPS_METRICS : ℤ := 4

/-- STEPS.MEAL_PLAN from App.jsx. -/
def STEPS_MEAL_PLAN : ℤ := 5

/-- App.jsx handleBack: step the wizard back one screen; any value outside
PROFILE..MEAL_PLAN is left unchanged. -/
def handleBack (currentStep : ℤ) : ℤ :=
  if currentStep = STEPS_MEAL_PLAN then STEPS_METRICS
  else if currentStep = STEPS_METRICS then STEPS_DASHBOARD
  else if currentStep = STEPS_DASHBOARD then STEPS_CARE_MODE
  else if currentStep = STEPS_CARE_MODE then STEPS_PROFILE
  else if currentStep = STEPS_PROFILE then STEPS_START
  else currentStep

/-- Concurrent-execution model for the calculator: a pool of callers, task i
invoking the calculator on tasks[i].  A schedule lists the order in which
the invocations complete; each completion writes only its own result slot,
the calculator touching no shared state. -/
def runTasks (tasks : List HealthProfile) (sched : List ℕ)
    (results : ℕ → Option HealthMetrics) : ℕ → Option HealthMetrics :=
  match sched with
  | [] => results
  | i :: rest =>
      runTasks tasks rest
        (fun j => if j = i then (tasks.get? i).map healthMetricsCalculator else results j)

/-- Run a schedule from the empty result table. -/
def execSched (tasks : List HealthProfile) (sched : List ℕ) : ℕ → Option HealthMetrics :=
  runTasks tasks sched (fun _ => none)

/-- C1: HealthMetricsCalculator is deterministic: two invocations on
identical valid input produce identical HealthMetrics output, there being
no randomness, clock, or hidden state in the computation. -/
theorem calculator_deterministic :
    ∀ p q : HealthProfile, validProfile p → p = q →
      healthMetricsCalculator p = healthMetricsCalculator q := by
  intro p q _ h
  rw [h]

/-- Witness for C1 at the default profile. -/
theorem calculator_deterministic_witness :
    healthMetricsCalculator DEFAULT_PROFILE = healthMetricsCalculator DEFAULT_PROFILE :=
  calculator_deterministic DEFAULT_PROFILE DEFAULT_PROFILE (by decide) rfl

/-- C5: the calculator is total over the validated domain: every valid
profile yields an ok result from the validated entry point; no error is
ever produced there. -/
theorem calculator_total :
    ∀ p : HealthProfile, validProfile p →
      healthMetricsChecked p = Except.ok (healthMetricsCalculator p) := by
  intro p hp
  simp [healthMetricsChecked, hp]

/-- Witness for C5 at the default profile. -/
theorem calculator_total_witness :
    healthMetricsChecked DEFAULT_PROFILE = Except.ok (healthMetricsCalculator DEFAULT_PROFILE) :=
  calculator_total DEFAULT_PROFILE (by decide)

/-- C6: on the frontend DEFAULT_PROFILE input (height 170, weight 70,
activity 2, exercise 2, type2) the calculator produces one fixed tuple. -/
theorem calculator_default_profile_value :
    healthMetricsCalculator DEFAULT_PROFILE =
      { bmr := 3535/2, tdee := 38885/16, daily_calories := 2431,
        max_carbs_per_meal := 71, daily_carbs_limit := 213,
        protein_target := 92 } := by
  simp only [healthMetricsCalculator, DEFAULT_PROFILE, activityFactor, carbFraction,
    HealthMetrics.mk.injEq]
  norm_num [Int.ceil_eq_iff]

/-- C10: handleBack never advances the wizard: it maps each step to its
predecessor, leaves START and every other value unchanged, and never
increases the numeric step. -/
theorem handleBack_never_advances :
    (handleBack STEPS_MEAL_PLAN = STEPS_METRICS ∧
     handleBack STEPS_METRICS = STEPS_DASHBOARD ∧
     handleBack STEPS_DASHBOARD = STEPS_CARE_MODE ∧
     handleBack STEPS_CARE_MODE = STEPS_PROFILE ∧
     handleBack STEPS_PROFILE = STEPS_START) ∧
    (∀ s : ℤ, s ≠ STEPS_PROFILE → s ≠ STEPS_CARE_MODE → s ≠ STEPS_DASHBOARD →
      s ≠ STEPS_METRICS → s ≠ STEPS_MEAL_PLAN → handleBack s = s) ∧
    (∀ s : ℤ, handleBack s ≤ s) := by
  refine ⟨by decide, ?_, ?_⟩
  · intro s h1 h2 h3 h4 h5
    simp only [STEPS_PROFILE, STEPS_CARE_MODE, STEPS_DASHBOARD, STEPS_METRICS,
      STEPS_MEAL_PLAN] at h1 h2 h3 h4 h5
    simp only [handleBack, STEPS_MEAL_PLAN, STEPS_METRICS, STEPS_DASHBOARD,
      STEPS_CARE_MODE, STEPS_PROFILE, STEPS_START]
    split_ifs <;> omega
  · intro s
    simp only [handleBack, STEPS_MEAL_PLAN, STEPS_METRICS, STEPS_DASHBOARD,
      STEPS_CARE_MODE, STEPS_PROFILE, STEPS_START]
    split_ifs <;> omega

/-- Witness for C10 on a step value outside the wizard range. -/
theorem handleBack_never_advances_witness : handleBack 99 = 99 :=
  handleBack_never_advances.2.1 99 (by decide) (by decide) (by decide)
    (by decide) (by decide)

/-- The activity factor is positive for every level. -/
theorem activityFactor_pos (level : ℕ) : 0 < activityFactor level := by
  unfold activityFactor
  split_ifs <;> norm_num

/-- The activity factor is monotone over the valid range 1..4. -/
theorem activityFactor_mono {a b : ℕ} (h1 : 1 ≤ a) (hab : a ≤ b) (hb4 : b ≤ 4) :
    activityFactor a ≤ activityFactor b := by
  have ha4 : a ≤ 4 := le_trans hab hb4
  interval_cases a <;> interval_cases b <;> norm_num [activityFactor]

/-- The carbohydrate fraction is positive for every diabetic type. -/
theorem carbFraction_pos (t : DiabeticType) : 0 < carbFraction t := by
  cases t <;> norm_num [carbFraction]

/-- C3: for every valid profile, including the boundary activity levels,
all four integer outputs of the calculator are strictly positive. -/
theorem calculator_outputs_positive :
    ∀ p : HealthProfile, validProfile p →
      0 < (healthMetricsCalculator p).daily_calories ∧
      0 < (healthMetricsCalculator p).daily_carbs_limit ∧
      0 < (healthMetricsCalculator p).max_carbs_per_meal ∧
      0 < (healthMetricsCalculator p).protein_target := by
  intro p hp
  obtain ⟨hh, hw, -, -⟩ := hp
  have hbmr : 0 < 10 * p.weight_kg + 25/4 * p.height_cm + 5 := by linarith
  have htdee : 0 < (10 * p.weight_kg + 25/4 * p.height_cm + 5) *
      activityFactor p.activity_level :=
    mul_pos hbmr (activityFactor_pos p.activity_level)
  have hfrac : 0 < carbFraction p.diabetic_type := carbFraction_pos p.diabetic_type
  refine ⟨?_, ?_, ?_, ?_⟩ <;> simp only [healthMetricsCalculator]
  · exact Int.ceil_pos.mpr htdee
  · exact Int.ceil_pos.mpr (by positivity)
  · exact Int.ceil_pos.mpr (by positivity)
  · exact Int.ceil_pos.mpr (by positivity)

/-- Witness for C3 at the boundary activity level 1. -/
theorem calculator_outputs_positive_witness :
    0 < (healthMetricsCalculator
        { height_cm := 170, weight_kg := 70, activity_level := 1,
          exercise_freq_per_week := 0, diabetic_type := .type1 }).daily_calories ∧
    0 < (healthMetricsCalculator
        { height_cm := 170, weight_kg := 70, activity_level := 1,
          exercise_freq_per_week := 0, diabetic_type := .type1 }).daily_carbs_limit ∧
    0 < (healthMetricsCalculator
        { height_cm := 170, weight_kg := 70, activity_level := 1,
          exercise_freq_per_week := 0, diabetic_type := .type1 }).max_carbs_per_meal ∧
    0 < (healthMetricsCalculator
        { height_cm := 170, weight_kg := 70, activity_level := 1,
          exercise_freq_per_week := 0, diabetic_type := .type1 }).protein_target :=
  calculator_outputs_positive _ (by decide)

/-- C4: holding all other fields fixed, a larger valid activity level gives
a TDEE at least as large. -/
theorem tdee_monotone_activity :
    ∀ p q : HealthProfile, validProfile p → validProfile q →
      p.height_cm = q.height_cm → p.weight_kg = q.weight_kg →
      p.exercise_freq_per_week = q.exercise_freq_per_week →
      p.diabetic_type = q.diabetic_type →
      p.activity_level ≤ q.activity_level →
      (healthMetricsCalculator p).tdee ≤ (healthMetricsCalculator q).tdee := by
  intro p q hp hq hh hw _ _ hle
  obtain ⟨-, -, hpa1, -⟩ := hp
  obtain ⟨hqh, hqw, -, hqa4⟩ := hq
  simp only [healthMetricsCalculator]
  rw [hh, hw]
  have hbmr : 0 ≤ 10 * q.weight_kg + 25/4 * q.height_cm + 5 := by linarith
  exact mul_le_mul_of_nonneg_left (activityFactor_mono hpa1 hle hqa4) hbmr

/-- Witness for C4 between activity levels 1 and 4 on otherwise equal
profiles. -/
theorem tdee_monotone_activity_witness :
    (healthMetricsCalculator
        { height_cm := 170, weight_kg := 70, activity_level := 1,
          exercise_freq_per_week := 2, diabetic_type := .type2 }).tdee ≤
      (healthMetricsCalculator
        { height_cm := 170, weight_kg := 70, activity_level := 4,
          exercise_freq_per_week := 2, diabetic_type := .type2 }).tdee :=
  tdee_monotone_activity _ _ (by decide) (by decide) rfl rfl rfl rfl (by decide)

/-- Counterexample to C2: validate accepts heightFt 3, weightLbs 100 while
leaving the Inches field unexamined, and with heightIn -40 the submitted
height_cm is -10, not positive. -/
theorem validate_accepts_nonpositive_height :
    validate (some 3) (some 100) = true ∧
    submittedHeightCm (some 3) (some (-40)) = -10 := by
  constructor
  · decide
  · simp only [submittedHeightCm, jsNumber, Option.getD, jsRound]
    norm_num [Int.floor_eq_iff]

/-- C2 amended: for every form submission that validate accepts and whose
Inches field, when filled, is nonnegative, the submitted profile satisfies
height_cm > 0 and weight_kg > 0. -/
theorem profileForm_submit_positive :
    ∀ heightFt heightIn weightLbs : Option ℚ,
      validate heightFt weightLbs = true →
      (∀ x ∈ heightIn, 0 ≤ x) →
      0 < submittedHeightCm heightFt heightIn ∧
      0 < submittedWeightKg weightLbs := by
  intro hf hi wl hv hpos
  cases hf with
  | none => simp [validate] at hv
  | some f =>
    cases wl with
    | none => simp [validate] at hv
    | some w =>
      simp only [validate, Bool.and_eq_true, Bool.not_eq_true', Bool.or_eq_false_iff,
        decide_eq_false_iff_not, not_lt] at hv
      obtain ⟨⟨hf3, hf8⟩, hw50, hw700⟩ := hv
      have hin0 : 0 ≤ jsNumber hi := by
        cases hi with
        | none => simp [jsNumber]
        | some x => simpa [jsNumber] using hpos x (by simp)
      constructor
      · have key : (1 : ℤ) ≤ submittedHeightCm (some f) hi := by
          simp only [submittedHeightCm, jsRound]
          rw [Int.le_floor]
          push_cast
          have hf' : jsNumber (some f) = f := by simp [jsNumber]
          rw [hf']
          nlinarith
        omega
      · have key : (1 : ℤ) ≤ submittedWeightKg (some w) := by
          simp only [submittedWeightKg, jsRound]
          rw [Int.le_floor]
          push_cast
          have hw' : jsNumber (some w) = w := by simp [jsNumber]
          rw [hw']
          rw [show w / (220462/100000 : ℚ) = w * 100000 / 220462 by ring]
          linarith
        omega

/-- Witness for the amended C2 at feet 5, inches 7, pounds 160. -/
theorem profileForm_submit_positive_witness :
    0 < submittedHeightCm (some 5) (some 7) ∧ 0 < submittedWeightKg (some 160) :=
  profileForm_submit_positive (some 5) (some 7) (some 160) (by decide) (by simp)

/-- A completion of a task not in the schedule leaves its slot untouched. -/
theorem runTasks_not_mem (tasks : List HealthProfile) (i : ℕ) :
    ∀ (sched : List ℕ) (results : ℕ → Option HealthMetrics), i ∉ sched →
      runTasks tasks sched results i = results i := by
  intro sched
  induction sched with
  | nil => intro results _; rfl
  | cons a rest ih =>
    intro results h
    rw [List.mem_cons, not_or] at h
    simp only [runTasks]
    rw [ih _ h.2]
    simp [h.1]

/-- A slot written during the schedule holds the isolated result of its own
task, regardless of the order of completions. -/
theorem runTasks_mem (tasks : List HealthProfile) (i : ℕ) :
    ∀ (sched : List ℕ) (results : ℕ → Option HealthMetrics), i ∈ sched →
      runTasks tasks sched results i = (tasks.get? i).map healthMetricsCalculator := by
  intro sched
  induction sched with
  | nil => intro results h; exact absurd h (List.not_mem_nil i)
  | cons a rest ih =>
    intro results h
    by_cases hr : i ∈ rest
    · simp only [runTasks]
      exact ih _ hr
    · have hia : i = a := by
        rcases List.mem_cons.mp h with h1 | h2
        · exact h1
        · exact absurd h2 hr
      simp only [runTasks]
      rw [runTasks_not_mem tasks i rest _ hr]
      simp [hia]

/-- C7: concurrent invocations behave as in isolation: whatever order the
scheduled invocations complete in, each caller's slot ends up holding
exactly the result of the sequential map of the calculator over the tasks;
the calculator writes no state but its own result. -/
theorem calculator_schedule_independent :
    ∀ (tasks : List HealthProfile) (sched : List ℕ) (i : ℕ), i ∈ sched →
      execSched tasks sched i = (tasks.map healthMetricsCalculator).get? i := by
  intro tasks sched i h
  rw [execSched, runTasks_mem tasks i sched _ h, List.get?_map]

/-- Witness for C7: one caller, singleton schedule. -/
theorem calculator_schedule_independent_witness :
    execSched [DEFAULT_PROFILE] [0] 0 =
      ([DEFAULT_PROFILE].map healthMetricsCalculator).get? 0 :=
  calculator_schedule_independent [DEFAULT_PROFILE] [0] 0 (by decide)

/-- A concrete meal plan for the C8 witness: breakfast and lunch under the
nested meal_plan object, dinner at top level, snacks missing its
total_carbs field. -/
def sampleMealPlan : MealPlanVal :=
  { meal_plan := some [("breakfast", { total_carbs := some 40 }),
                       ("lunch", { total_carbs := some 50 })]
    top := [("dinner", { total_carbs := some 45 }),
            ("snacks", { total_carbs := none })] }

/-- C8: the displayed Daily Carbs Total is the sum of total_carbs over the
four meal types, a missing meal or field contributing 0, and the Within
indicator renders exactly when that total is at most dailyCarbsLimit. -/
theorem mealPlan_total_and_indicator :
    ∀ (mp : MealPlanVal) (dailyCarbsLimit : ℚ),
      totalCarbs mp =
        mealCarbs mp "breakfast" + mealCarbs mp "lunch" +
          mealCarbs mp "dinner" + mealCarbs mp "snacks" ∧
      (withinLimit mp dailyCarbsLimit = true ↔ totalCarbs mp ≤ dailyCarbsLimit) := by
  intro mp dailyCarbsLimit
  constructor
  · simp only [totalCarbs, MEAL_TYPES, List.foldl]
    ring
  · simp [withinLimit]

/-- Witness for C8 on the sample plan with limit 150: 40+50+45+0 is within. -/
theorem mealPlan_total_and_indicator_witness :
    withinLimit sampleMealPlan 150 = true :=
  (mealPlan_total_and_indicator sampleMealPlan 150).2.mpr (by
    have h : totalCarbs sampleMealPlan = 135 := by
      simp [totalCarbs, MEAL_TYPES, mealCarbs, getMeal, sampleMealPlan, List.lookup]
      norm_num
    rw [h]
    norm_num)

/-- The fixed replacement message itself contains the word limit, so the
lowercased containment test accepts it. -/
theorem quotaMessage_contains_limit : strContainsLower quotaMessage "limit" = true := by
  decide

/-- The fixed replacement message is not the empty string. -/
theorem quotaMessage_not_empty : quotaMessage ≠ "" := by
  decide

/-- Closed form of the observed message after interception: the fixed quota
string when the quota condition holds and the data slot accepts the write,
the original detail-or-message in every other case — in particular a truthy
non-object body silently drops the replacement. -/
theorem propagatedMessage_eq (e : ApiError) :
    propagatedMessage e =
      if isQuotaError e && writableData e then quotaMessage
      else origMessage e := by
  obtain ⟨resp, msg⟩ := e
  cases resp with
  | none =>
      cases hq : isQuotaError { response := none, message := msg } <;>
        simp [propagatedMessage, interceptError, writableData, origMessage, hq,
          jsOrStr, quotaMessage_not_empty]
  | some r =>
      obtain ⟨st, data⟩ := r
      cases data with
      | nullish =>
          cases hq : isQuotaError
              { response := some { status := st, data := .nullish }, message := msg } <;>
            simp [propagatedMessage, interceptError, writableData, origMessage, hq,
              dataTruthy, dataDetail, dataIsObj, jsOrStr, quotaMessage_not_empty]
      | obj d =>
          cases hq : isQuotaError
              { response := some { status := st, data := .obj d }, message := msg } <;>
            cases d <;>
              simp [propagatedMessage, interceptError, writableData, origMessage, hq,
                dataTruthy, dataDetail, dataIsObj, jsOrStr, quotaMessage_not_empty] <;>
              split_ifs <;> simp_all
      | str s =>
          by_cases hs : s = ""
          · subst hs
            cases hq : isQuotaError
                { response := some { status := st, data := .str "" }, message := msg } <;>
              simp [propagatedMessage, interceptError, writableData, origMessage, hq,
                dataTruthy, dataDetail, dataIsObj, jsOrStr, quotaMessage_not_empty]
          · cases hq : isQuotaError
                { response := some { status := st, data := .str s }, message := msg } <;>
              simp [propagatedMessage, interceptError, writableData, origMessage, hq,
                dataTruthy, dataDetail, dataIsObj, jsOrStr, hs]

/-- Counterexample to C9: a 429 rejection whose body is a raw non-JSON
string. The quota condition holds, yet the typeof object guard fails, the
source writes the fixed message nowhere, and the caller observes the
original error.message instead of the fixed quota string. -/
theorem interceptor_drops_quota_on_raw_body :
    isQuotaError
      { response := some { status := 429, data := .str "Too Many Requests" },
        message := "Request failed" } = true ∧
    propagatedMessage
      { response := some { status := 429, data := .str "Too Many Requests" },
        message := "Request failed" } = "Request failed" ∧
    propagatedMessage
      { response := some { status := 429, data := .str "Too Many Requests" },
        message := "Request failed" } ≠ quotaMessage := by
  refine ⟨by decide, by decide, by decide⟩

/-- C9 amended: when the data slot accepts the write (no response, falsy
body, or object body), the observed message is the fixed quota string
exactly when the status is 429 or the original message contains quota,
limit, or resource exhausted case-insensitively; when a truthy non-object
body blocks the write the original message passes through unchanged even
under the quota condition; and in every non-quota case the original
detail-or-message passes through unchanged. -/
theorem interceptor_quota_message :
    ∀ e : ApiError,
      (writableData e = true →
        (propagatedMessage e = quotaMessage ↔ isQuotaError e = true)) ∧
      (writableData e = false → propagatedMessage e = origMessage e) ∧
      (isQuotaError e = false → propagatedMessage e = origMessage e) := by
  intro e
  have hpe := propagatedMessage_eq e
  refine ⟨?_, ?_, ?_⟩
  · intro hw
    rw [hpe, hw, Bool.and_true]
    constructor
    · intro h
      by_contra hfalse
      rw [Bool.not_eq_true] at hfalse
      rw [hfalse] at h
      simp only [Bool.false_eq_true, if_false] at h
      have htrue : isQuotaError e = true := by
        simp [isQuotaError, h, quotaMessage_contains_limit]
      rw [htrue] at hfalse
      cases hfalse
    · intro h
      rw [h]
      simp
  · intro hw
    rw [hpe, hw, Bool.and_false]
    simp
  · intro hq
    rw [hpe, hq, Bool.false_and]
    simp

/-- Witness for the amended C9 on a concrete 429 rejection carrying an
object body. -/
theorem interceptor_quota_message_witness :
    propagatedMessage
      { response := some { status := 429, data := .obj (some "Too many requests") },
        message := "Request failed" } = quotaMessage :=
  ((interceptor_quota_message
      { response := some { status := 429, data := .obj (some "Too many requests") },
        message := "Request failed" }).1 (by decide)).mpr (by decide)
